import Mathlib

/-!
Verification of the extraction-and-scoring core of the house-trawler
repository (src/trawler.py, src/property_model.py).

The Python source is shallowly embedded: each extractor, classifier and the
filter/score pipeline of the class UKPropertyTrawler is translated into an
executable Lean function over lists of characters.  Python floats are
modelled by rationals; every arithmetic step exercised by the theorems
below (integer parses, multiplication by 52, division by 12, midpoints,
quarters) is exact in binary floating point, so the rational model agrees
with the Python values at all inputs considered.  Python regular
expressions are hand-translated to character-list scanners implementing
the leftmost-match semantics of re.search; for each pattern the absence of
observable backtracking is argued in a comment at its definition.
-/

namespace HouseTrawler

/-! ### Character and text utilities -/

/-- Python regex class backslash-s restricted to the whitespace characters
that can occur in the ASCII listing texts (space, tab, newline, carriage
return). -/
def isPySpace (c : Char) : Bool :=
  c = ' ' || c = '\t' || c = '\n' || c = '\r'

/-- Python regex class backslash-w for lower-cased ASCII text:
letters, digits and underscore. -/
def isWordChar (c : Char) : Bool :=
  c.isAlphanum || c = '_'

/-- Python str.lower applied to an ASCII string, as a character list. -/
def lowerData (s : String) : List Char :=
  s.data.map Char.toLower

/-- Python str.upper applied to an ASCII string, as a character list. -/
def upperData (s : String) : List Char :=
  s.data.map Char.toUpper

/-- Python substring containment: containsSub hay needle decides
needle in hay (contiguous occurrence, the empty needle always matches). -/
def containsSub : List Char → List Char → Bool
  | hay, needle =>
    match hay with
    | [] => needle.isEmpty
    | _ :: t => needle.isPrefixOf hay || containsSub t needle

/-- Whether a word-boundary-delimited occurrence of pat starts at the
current position of the text.  prevIsWord records whether the character
just before the current position is a word character (false at the start
of the text).  All indicator patterns in the source start and end with a
word character, for which the regex boundary anchor means exactly: the
previous character (if any) is not a word character, and the character
following the occurrence (if any) is not a word character. -/
def wbMatchAt (pat : List Char) (prevIsWord : Bool) (s : List Char) : Bool :=
  !prevIsWord && pat.isPrefixOf s &&
    (match s.drop pat.length with
     | [] => true
     | d :: _ => !isWordChar d)

/-- Scan of the text for a word-boundary occurrence of pat, mirroring
re.search of a pattern wrapped in boundary anchors. -/
def wbSearchAux (pat : List Char) (prevIsWord : Bool) : List Char → Bool
  | [] => false
  | c :: rest => wbMatchAt pat prevIsWord (c :: rest) || wbSearchAux pat (isWordChar c) rest

/-- re.search of a boundary-anchored literal pattern against a text. -/
def wbSearch (pat : List Char) (s : List Char) : Bool :=
  wbSearchAux pat false s

/-- Python str.strip: remove any leading and trailing whitespace. -/
def pyStrip (cs : List Char) : List Char :=
  ((cs.dropWhile isPySpace).reverse.dropWhile isPySpace).reverse

/-- Whether a character separates keywords in the filter stage:
re.split on one-or-more commas-or-whitespace. -/
def isKwSep (c : Char) : Bool :=
  c = ',' || isPySpace c

/-- Splitting on runs of separator characters, with the pending token
accumulated in reverse: the maximal separator-free runs, in order. -/
def pySplitAux (sep : Char → Bool) : List Char → List Char → List (List Char)
  | [], acc => if acc.isEmpty then [] else [acc.reverse]
  | c :: rest, acc =>
    if sep c then
      if acc.isEmpty then pySplitAux sep rest []
      else acc.reverse :: pySplitAux sep rest []
    else pySplitAux sep rest (c :: acc)

/-- Python re.split on runs of comma/whitespace, keeping only the nonempty
tokens.  The source filters the split result through k.strip() and drops
falsy entries, which removes exactly the empty edge tokens re.split can
produce, so producing only the maximal separator-free runs is faithful. -/
def pySplitKw (cs : List Char) : List (List Char) :=
  pySplitAux isKwSep cs []

/-- Python re.split on runs of whitespace, keeping only the nonempty
tokens.  The fuzzy matcher skips split results shorter than three
characters, which in particular drops the empty edge tokens re.split can
produce, so producing only the maximal whitespace-free runs is faithful. -/
def pySplitWs (cs : List Char) : List (List Char) :=
  pySplitAux isPySpace cs []

/-- Value of a nonempty list of decimal digits, as produced by int() or
float() on an all-digit string (both are exact at every magnitude reached
by the theorems below). -/
def natOfDigits (ds : List Char) : ℕ :=
  ds.foldl (fun n c => 10 * n + (c.toNat - '0'.toNat)) 0

/-! ### Exact rational arithmetic

The arithmetic of Mathlib's rationals is declared irreducible, which
blocks kernel evaluation of concrete instances.  The embedding therefore
computes with the following mkRat-based operations; the bridge lemmas
prove each one equal to the corresponding standard operation on ℚ, so
every theorem below is a statement about ordinary rational arithmetic. -/

/-- Addition on ℚ by cross-multiplication. -/
def qAdd (a b : ℚ) : ℚ :=
  mkRat (a.num * b.den + b.num * a.den) (a.den * b.den)

/-- Subtraction on ℚ by cross-multiplication. -/
def qSub (a b : ℚ) : ℚ :=
  mkRat (a.num * b.den - b.num * a.den) (a.den * b.den)

/-- Multiplication on ℚ on raw numerators and denominators. -/
def qMul (a b : ℚ) : ℚ :=
  mkRat (a.num * b.num) (a.den * b.den)

/-- Division on ℚ (zero for a zero divisor, as in Mathlib). -/
def qDiv (a b : ℚ) : ℚ :=
  mkRat (a.num * b.den * b.num.sign) (a.den * b.num.natAbs)

/-- Absolute value on ℚ. -/
def qAbs (a : ℚ) : ℚ :=
  mkRat (a.num.natAbs) a.den

/-- Python min of two floats (the first argument on ties). -/
def pyMin (a b : ℚ) : ℚ :=
  if a ≤ b then a else b

/-- Python max of two floats (the second argument on ties, same value). -/
def pyMax (a b : ℚ) : ℚ :=
  if a < b then b else a

theorem qAdd_eq (a b : ℚ) : qAdd a b = a + b := by
  rw [qAdd, Rat.mkRat_eq_div]
  push_cast
  conv_rhs => rw [← Rat.num_div_den a, ← Rat.num_div_den b]
  rw [div_add_div _ _ (by exact_mod_cast a.den_nz) (by exact_mod_cast b.den_nz)]
  congr 1
  ring

theorem qSub_eq (a b : ℚ) : qSub a b = a - b := by
  rw [qSub, Rat.mkRat_eq_div]
  push_cast
  conv_rhs => rw [← Rat.num_div_den a, ← Rat.num_div_den b]
  rw [div_sub_div _ _ (by exact_mod_cast a.den_nz) (by exact_mod_cast b.den_nz)]
  congr 1
  ring

theorem qMul_eq (a b : ℚ) : qMul a b = a * b := by
  rw [qMul, Rat.mkRat_eq_div]
  push_cast
  conv_rhs => rw [← Rat.num_div_den a, ← Rat.num_div_den b]
  rw [div_mul_div_comm]

theorem qDiv_eq (a b : ℚ) : qDiv a b = a / b := by
  rw [qDiv, Rat.mkRat_eq_div]
  have key : a / b = ((a.num : ℚ) * b.den) / ((a.den : ℚ) * b.num) := by
    conv_lhs => rw [← Rat.num_div_den a, ← Rat.num_div_den b]
    rw [div_eq_mul_inv _ ((b.num : ℚ) / b.den), inv_div, div_mul_div_comm]
  rw [key]
  push_cast
  rw [Nat.cast_natAbs (α := ℚ), Int.cast_abs]
  rcases Int.lt_trichotomy b.num 0 with hb | hb | hb
  · rw [Int.sign_eq_neg_one_of_neg hb]
    rw [abs_of_neg (by exact_mod_cast hb : ((b.num : ℚ) < 0))]
    push_cast
    rw [mul_neg_one, mul_neg, neg_div_neg_eq]
  · simp [hb]
  · rw [Int.sign_eq_one_of_pos hb]
    rw [abs_of_pos (by exact_mod_cast hb : ((0:ℚ) < (b.num : ℚ)))]
    push_cast
    rw [mul_one]

theorem qAbs_eq (a : ℚ) : qAbs a = |a| := by
  rw [qAbs, Rat.mkRat_eq_div]
  push_cast
  conv_rhs => rw [← Rat.num_div_den a, abs_div]
  rw [abs_of_pos (by exact_mod_cast a.pos : ((0:ℚ) < (a.den : ℚ)))]

theorem pyMin_eq (a b : ℚ) : pyMin a b = min a b := by
  rw [pyMin, min_def]

theorem pyMax_eq (a b : ℚ) : pyMax a b = max a b := by
  rw [pyMax, max_def]
  by_cases h : a < b
  · rw [if_pos h, if_pos h.le]
  · by_cases h2 : a ≤ b
    · rw [if_neg h, if_pos h2, le_antisymm h2 (not_lt.mp h)]
    · rw [if_neg h, if_neg h2]

/-! ### difflib.SequenceMatcher

The fuzzy keyword matcher calls SequenceMatcher(None, keyword, word).ratio().
The matcher is translated from CPython difflib with isjunk = None, so the
junk set over b is empty and the junk-adjacent extension loops of
find_longest_match never fire; the autojunk popularity cut (applied only
when b has at least 200 elements) is kept. -/

/-- difflib b2j: the ascending list of positions of c in b, emptied when
autojunk classifies c as popular (only possible for len(b) >= 200, with
more than len(b)/100 + 1 occurrences). -/
def b2j (b : List Char) (c : Char) : List ℕ :=
  if 200 ≤ b.length && b.length / 100 + 1 < b.count c then []
  else (List.range b.length).filter (fun j => b.get? j == some c)

/-- Positions of a.get? i in b (b2j.get(a[i], nothing)). -/
def b2jGet (b : List Char) (oc : Option Char) : List ℕ :=
  match oc with
  | none => []
  | some c => b2j b c

/-- Whether a at index i and b at index j hold the same character (both
indices in range). -/
def charAtEq (a b : List Char) (i j : ℕ) : Bool :=
  match a.get? i, b.get? j with
  | some x, some y => x == y
  | _, _ => false

/-- One row of the find_longest_match dynamic program: process position i
of a, reading the previous row j2len and accumulating the new row together
with the running best (besti, bestj, bestsize).  Entries of the Python
dict j2len are modelled as a total function that is zero off its keys; the
dict lookup j2len.get(j-1, 0) misses for j = 0 (Python key -1), hence the
guard.  The position list js is ascending, so skipping the positions at or
beyond bhi agrees with the break statement in the source. -/
def flmRow (j2len : ℕ → ℕ) (i blo bhi : ℕ) (js : List ℕ) (best : ℕ × ℕ × ℕ) :
    (ℕ → ℕ) × (ℕ × ℕ × ℕ) :=
  js.foldl
    (fun acc j =>
      if j < blo then acc
      else if bhi ≤ j then acc
      else
        let k := (if j = 0 then 0 else j2len (j - 1)) + 1
        let best2 := if k > acc.2.2.2 then (i + 1 - k, j + 1 - k, k) else acc.2
        ((fun j2 => if j2 = j then k else acc.1 j2), best2))
    ((fun _ => 0), best)

/-- Backward extension of the best match while preceding characters agree
(with an empty junk set, the non-junk extension loop of the source). -/
def extendLeft (a b : List Char) (alo blo : ℕ) : ℕ → ℕ × ℕ × ℕ → ℕ × ℕ × ℕ
  | 0, best => best
  | fuel + 1, (bi, bj, bs) =>
    if alo < bi && blo < bj && charAtEq a b (bi - 1) (bj - 1) then
      extendLeft a b alo blo fuel (bi - 1, bj - 1, bs + 1)
    else (bi, bj, bs)

/-- Forward extension of the best match while following characters agree. -/
def extendRight (a b : List Char) (ahi bhi : ℕ) : ℕ → ℕ × ℕ × ℕ → ℕ × ℕ × ℕ
  | 0, best => best
  | fuel + 1, (bi, bj, bs) =>
    if bi + bs < ahi && bj + bs < bhi && charAtEq a b (bi + bs) (bj + bs) then
      extendRight a b ahi bhi fuel (bi, bj, bs + 1)
    else (bi, bj, bs)

/-- difflib find_longest_match on the rectangle [alo, ahi) x [blo, bhi):
longest matching block, earliest in a then in b among equals (the strict
comparison k > bestsize of the dynamic program), then extended over equal
neighbouring characters.  The extension fuels bound the loop trip counts
(at most ahi steps each). -/
def findLongestMatch (a b : List Char) (alo ahi blo bhi : ℕ) : ℕ × ℕ × ℕ :=
  let scan := (List.range' alo (ahi - alo)).foldl
    (fun acc i => flmRow acc.1 i blo bhi (b2jGet b (a.get? i)) acc.2)
    ((fun _ => 0), (alo, blo, 0))
  extendRight a b ahi bhi (ahi + 1)
    (extendLeft a b alo blo (ahi + 1) scan.2)

/-- Total size of the matching blocks of get_matching_blocks: the longest
match splits the rectangle into two smaller rectangles that are processed
in turn (the source uses an explicit queue; the visited rectangles and
hence the total are the same, and the rectangles the source skips when one
side is empty contribute zero here).  The fuel dominates the recursion
depth: each level strictly shrinks (ahi - alo) + (bhi - blo). -/
def matchTotal (a b : List Char) : ℕ → ℕ → ℕ → ℕ → ℕ → ℕ
  | 0, _, _, _, _ => 0
  | fuel + 1, alo, ahi, blo, bhi =>
    let m := findLongestMatch a b alo ahi blo bhi
    if m.2.2 = 0 then 0
    else
      m.2.2 + matchTotal a b fuel alo m.1 blo m.2.1
        + matchTotal a b fuel (m.1 + m.2.2) ahi (m.2.1 + m.2.2) bhi

/-- SequenceMatcher(None, a, b).ratio(): twice the matched total over the
combined length (1.0 for two empty sequences). -/
def smSimilarity (a b : List Char) : ℚ :=
  let total := a.length + b.length
  if total = 0 then 1
  else qDiv (qMul 2 (matchTotal a b total 0 a.length 0 b.length : ℚ)) (total : ℚ)

/-! ### Fuzzy keyword matcher (UKPropertyTrawler.fuzzy_match_keyword) -/

/-- Typo-tolerant keyword test against a body of text.  Keywords of length
at most three require plain substring containment; longer keywords are
compared word by word: containment either way accepts immediately,
otherwise the similarity ratio is thresholded at 0.75 for keywords of
length at most six and at 0.70 beyond (both constants exact in the
rational model: the source compares against the float literals 0.75 and
0.70, and no ratio of small integers separates those floats from 3/4 and
7/10). -/
def fuzzy_match_keyword (keyword text : List Char) : Bool :=
  if keyword.length ≤ 3 then containsSub text keyword
  else
    (pySplitWs text).any fun word =>
      if word.length < 3 then false
      else if containsSub word keyword || containsSub keyword word then true
      else
        let similarity := smSimilarity keyword word
        if keyword.length ≤ 6 then decide (similarity ≥ mkRat 3 4)
        else decide (similarity ≥ mkRat 7 10)

/-! ### Price extraction (UKPropertyTrawler.extract_price)

The three price regexes share the shape: a pound sign, optional
whitespace, one or more digits-or-commas (the captured group), then for
the first two patterns optional whitespace followed by one of the literal
qualifiers.  The digit-or-comma run and the whitespace runs are taken
maximally; no backtracking can change the outcome because none of the
qualifier literals starts with a digit, a comma or a space, so a match
rejected at maximal munch is rejected at every shorter split as well.
re.search with IGNORECASE over the original text coincides, for these
all-lowercase patterns on ASCII text, with the scan below over the
lower-cased text. -/

/-- Whether the character belongs to the captured group class. -/
def isDigitOrComma (c : Char) : Bool :=
  c.isDigit || c = ','

/-- Attempted match of one price pattern anchored at the current position:
returns the captured digits-and-commas group.  With noSuffix the qualifier
alternation is absent (the bare-amount pattern). -/
def priceMatchAt (alts : List (List Char)) (noSuffix : Bool) :
    List Char → Option (List Char)
  | [] => none
  | c :: rest =>
    if c = '£' then
      let afterSpaces := rest.dropWhile isPySpace
      let group := afterSpaces.takeWhile isDigitOrComma
      if group.isEmpty then none
      else if noSuffix then some group
      else
        let afterGroup := (afterSpaces.dropWhile isDigitOrComma).dropWhile isPySpace
        if alts.any (fun a => a.isPrefixOf afterGroup) then some group else none
    else none

/-- re.search for one price pattern: the leftmost position at which the
pattern matches, returning the captured group. -/
def priceSearch (alts : List (List Char)) (noSuffix : Bool) :
    List Char → Option (List Char)
  | [] => none
  | c :: rest =>
    (priceMatchAt alts noSuffix (c :: rest)).orElse
      (fun _ => priceSearch alts noSuffix rest)

/-- Qualifier alternation of the monthly pattern. -/
def monthlyQualifiers : List (List Char) :=
  ["pcm".data, "per month".data, "pm".data]

/-- Qualifier alternation of the weekly pattern. -/
def weeklyQualifiers : List (List Char) :=
  ["pw".data, "per week".data]

/-- One iteration of the pattern loop: parse the captured group (commas
removed; float() on an empty all-comma group raises ValueError, which the
source swallows before moving to the next pattern), apply the
weekly-to-monthly conversion when the lower-cased text contains pw or
per week anywhere, and keep the result only inside the sanity range
[100, 10000000]. -/
def tryPricePattern (tl : List Char) (alts : List (List Char)) (noSuffix : Bool) :
    Option ℚ :=
  match priceSearch alts noSuffix tl with
  | none => none
  | some group =>
    let digits := group.filter (fun c => c ≠ ',')
    if digits.isEmpty then none
    else
      let v : ℚ := (natOfDigits digits : ℚ)
      let price :=
        if containsSub tl ("pw".data) || containsSub tl ("per week".data) then
          qDiv (qMul v 52) 12
        else v
      if 100 ≤ price ∧ price ≤ 10000000 then some price else none

/-- UKPropertyTrawler.extract_price: monthly pattern, then weekly pattern,
then bare amount; empty or absent text yields nothing. -/
def extract_price (text : Option String) : Option ℚ :=
  match text with
  | none => none
  | some t =>
    if t.data.isEmpty then none
    else
      let tl := lowerData t
      (tryPricePattern tl monthlyQualifiers false).orElse fun _ =>
        (tryPricePattern tl weeklyQualifiers false).orElse fun _ =>
          tryPricePattern tl [] true

/-! ### Bedroom and bathroom extraction -/

/-- Attempted match of digits-then-optional-space-then-qualifier anchored
at the current position.  As for prices, the digit run and space run are
maximal and no qualifier starts with a digit or space, so backtracking
cannot rescue a rejected position. -/
def numberBeforeAt (alts : List (List Char)) : List Char → Option (List Char)
  | [] => none
  | c :: rest =>
    if c.isDigit then
      let ds := (c :: rest).takeWhile Char.isDigit
      let after := ((c :: rest).dropWhile Char.isDigit).dropWhile isPySpace
      if alts.any (fun a => a.isPrefixOf after) then some ds else none
    else none

/-- re.search for the digits-before-qualifier pattern. -/
def numberBeforeSearch (alts : List (List Char)) : List Char → Option (List Char)
  | [] => none
  | c :: rest =>
    (numberBeforeAt alts (c :: rest)).orElse
      (fun _ => numberBeforeSearch alts rest)

/-- UKPropertyTrawler.extract_bedrooms: first digit run followed by bed or
bedroom in the lower-cased text (int() on the captured all-digit group
cannot fail, so the ValueError branch of the source is unreachable). -/
def extract_bedrooms (text : Option String) : Option ℤ :=
  match text with
  | none => none
  | some t =>
    if t.data.isEmpty then none
    else
      (numberBeforeSearch ["bed".data, "bedroom".data] (lowerData t)).map
        (fun ds => (natOfDigits ds : ℤ))

/-- UKPropertyTrawler.extract_bathrooms: as for bedrooms with bath or
bathroom. -/
def extract_bathrooms (text : Option String) : Option ℤ :=
  match text with
  | none => none
  | some t =>
    if t.data.isEmpty then none
    else
      (numberBeforeSearch ["bath".data, "bathroom".data] (lowerData t)).map
        (fun ds => (natOfDigits ds : ℤ))

/-! ### Garden and balcony extraction -/

/-- Positive garden indicators, each a word-boundary pattern. -/
def gardenIndicators : List (List Char) :=
  ["garden".data, "private garden".data, "shared garden".data,
   "outdoor space".data, "patio".data, "terrace".data, "yard".data,
   "courtyard".data]

/-- Negative garden indicators, plain substring patterns. -/
def noGardenIndicators : List (List Char) :=
  ["no garden".data, "without garden".data, "no outdoor space".data]

/-- Positive balcony indicators, each a word-boundary pattern. -/
def balconyIndicators : List (List Char) :=
  ["balcony".data, "balconies".data, "private balcony".data,
   "shared balcony".data, "terrace".data]

/-- Negative balcony indicators, plain substring patterns. -/
def noBalconyIndicators : List (List Char) :=
  ["no balcony".data, "without balcony".data]

/-- UKPropertyTrawler.extract_garden: tri-state garden evidence.  Any
positive indicator yields true; otherwise any negative indicator yields
false; otherwise no result. -/
def extract_garden (text : Option String) : Option Bool :=
  match text with
  | none => none
  | some t =>
    if t.data.isEmpty then none
    else
      let tl := lowerData t
      if gardenIndicators.any (fun p => wbSearch p tl) then some true
      else if noGardenIndicators.any (fun p => containsSub tl p) then some false
      else none

/-- UKPropertyTrawler.extract_balcony: tri-state balcony evidence. -/
def extract_balcony (text : Option String) : Option Bool :=
  match text with
  | none => none
  | some t =>
    if t.data.isEmpty then none
    else
      let tl := lowerData t
      if balconyIndicators.any (fun p => wbSearch p tl) then some true
      else if noBalconyIndicators.any (fun p => containsSub tl p) then some false
      else none

/-! ### Category classifiers -/

/-- Student-accommodation indicator patterns, all word-boundary wrapped,
in source order. -/
def studentIndicators : List (List Char) :=
  ["student".data, "student accommodation".data, "student housing".data,
   "student flat".data, "student room".data, "university accommodation".data,
   "hall of residence".data, "student halls".data, "student let".data,
   "student property".data, "for students".data, "student only".data]

/-- House-share indicator patterns. -/
def houseShareIndicators : List (List Char) :=
  ["house share".data, "house sharing".data, "shared house".data,
   "share house".data, "room in shared house".data,
   "shared accommodation".data, "room to rent".data, "single room".data,
   "double room".data, "room available".data, "room for rent".data,
   "share of".data, "sharing with".data]

/-- Retirement indicator patterns. -/
def retirementIndicators : List (List Char) :=
  ["retirement".data, "retirement property".data, "retirement flat".data,
   "retirement home".data, "retirement housing".data, "over 55".data,
   "over 60".data, "over 65".data, "age restricted".data,
   "senior living".data, "sheltered accommodation".data,
   "retirement village".data, "retirement community".data]

/-- UKPropertyTrawler.is_student_accommodation: true when any indicator is
found in the lower-cased text, false on empty or absent text. -/
def is_student_accommodation (text : Option String) : Bool :=
  match text with
  | none => false
  | some t =>
    if t.data.isEmpty then false
    else studentIndicators.any (fun p => wbSearch p (lowerData t))

/-- UKPropertyTrawler.is_house_share. -/
def is_house_share (text : Option String) : Bool :=
  match text with
  | none => false
  | some t =>
    if t.data.isEmpty then false
    else houseShareIndicators.any (fun p => wbSearch p (lowerData t))

/-- UKPropertyTrawler.is_retirement_property. -/
def is_retirement_property (text : Option String) : Bool :=
  match text with
  | none => false
  | some t =>
    if t.data.isEmpty then false
    else retirementIndicators.any (fun p => wbSearch p (lowerData t))

/-! ### Postcode extraction

The UK postcode pattern: one or two capital letters, one or two digits, an
optional capital letter, an optional whitespace character, a digit, two
capital letters.  The bounded quantifiers genuinely backtrack, so the
matcher enumerates the sixteen quantifier choices in the priority order of
the regex engine: earlier quantifiers take their longer option first. -/

/-- ASCII capital letter. -/
def isUpperAZ (c : Char) : Bool :=
  'A' ≤ c && c ≤ 'Z'

/-- Character classes of the postcode pattern for one choice of the four
quantifier lengths. -/
def pcClasses (l d ol os : ℕ) : List (Char → Bool) :=
  List.replicate l isUpperAZ ++ List.replicate d Char.isDigit ++
    List.replicate ol isUpperAZ ++ List.replicate os isPySpace ++
    [Char.isDigit, isUpperAZ, isUpperAZ]

/-- Quantifier choices in regex priority order. -/
def pcCombos : List (ℕ × ℕ × ℕ × ℕ) :=
  [2, 1].flatMap fun l => [2, 1].flatMap fun d => [1, 0].flatMap fun ol =>
    [1, 0].map fun os => (l, d, ol, os)

/-- Whether the text starts with one character from each class in turn. -/
def matchClassesAt : List (Char → Bool) → List Char → Bool
  | [], _ => true
  | _ :: _, [] => false
  | p :: ps, c :: rest => p c && matchClassesAt ps rest

/-- Attempted postcode match anchored at the current position: the
matched text of the first quantifier choice that fits. -/
def pcMatchAt (s : List Char) : Option (List Char) :=
  pcCombos.findSome? fun combo =>
    let cls := pcClasses combo.1 combo.2.1 combo.2.2.1 combo.2.2.2
    if matchClassesAt cls s then some (s.take cls.length) else none

/-- re.search for the postcode pattern. -/
def pcSearch : List Char → Option (List Char)
  | [] => none
  | c :: rest => (pcMatchAt (c :: rest)).orElse fun _ => pcSearch rest

/-- UKPropertyTrawler.extract_postcode: first postcode-shaped fragment of
the upper-cased text. -/
def extract_postcode (text : Option String) : Option String :=
  match text with
  | none => none
  | some t =>
    if t.data.isEmpty then none
    else (pcSearch (upperData t)).map (fun cs => String.mk cs)

/-! ### Data model (property_model.Property and the filters dict)

A Filters field holding none models a key that is absent from the Python
dict.  The callers that build the dict (main.py, which removes every
None-valued key before filtering, and the test driver, which writes
literal dicts) never pass a key bound to None, so the absent-key defaults
of dict.get are the only defaults in play. -/

structure Property where
  title : String := ""
  price : Option ℚ := none
  address : String := ""
  property_type : String := "house"
  bedrooms : Option ℤ := none
  bathrooms : Option ℤ := none
  area_sqft : Option ℚ := none
  description : String := ""
  url : String := ""
  source : String := ""
  listed_date : Option String := none
  location : String := ""
  postcode : Option String := none
  has_garden : Option Bool := none
  has_balcony : Option Bool := none
  image_url : Option String := none
  match_score : Option ℚ := none
deriving DecidableEq

structure Filters where
  min_price : Option ℚ := none
  max_price : Option ℚ := none
  min_bedrooms : Option ℤ := none
  max_bedrooms : Option ℤ := none
  min_bathrooms : Option ℤ := none
  max_bathrooms : Option ℤ := none
  has_garden : Option Bool := none
  has_balcony : Option Bool := none
  exclude_student_accommodation : Bool := false
  exclude_house_shares : Bool := false
  exclude_retirement : Bool := false
  keywords : Option String := none
deriving DecidableEq

/-- Python truthiness of an optional string (None and the empty string are
falsy). -/
def strTruthy (s : Option String) : Bool :=
  match s with
  | none => false
  | some t => !t.data.isEmpty

/-! ### Match scorer (UKPropertyTrawler.calculate_match_score) -/

/-- Price sub-score.  The source reads min_price = filters.get('min_price', 0)
and max_price = filters.get('max_price', inf), so an absent min key
becomes 0 and an absent max key becomes infinity.  The branch guard
requires both values non-None and the max finite: with None-valued keys
never present, the guard holds exactly when the max key is present (the
min slot is 0 or a number, never None).  When the max key is absent the
guard max_price != inf fails and control falls to the elif on
min_price is not None, which always holds; the two later branches of the
source (max-only 30-or-0, flat 15) are unreachable. -/
def priceScore (price : Option ℚ) (minP maxP : Option ℚ) : ℚ :=
  match price with
  | none => 5
  | some p =>
    match maxP with
    | some mx =>
      let mn := minP.getD 0
      let ideal := qDiv (qAdd mn mx) 2
      let range := qSub mx mn
      if 0 < range then
        pyMax 0 (qMul 30 (qSub 1 (qDiv (qAbs (qSub p ideal)) range)))
      else
        if mn ≤ p ∧ p ≤ mx then 30 else 0
    | none =>
      if minP.getD 0 ≤ p then 30 else 0

/-- Bedroom and bathroom sub-score, shared shape.  When either bound key
is present: a missing record value scores 2, a value outside
[min-or-0, max-or-inf] scores 5, a value at the ideal (the midpoint, or
the min when the max key is absent) scores 20, any other in-range value
scores 15.  Without bounds a present value earns the flat 10. -/
def roomScore (v : Option ℤ) (lo hi : Option ℤ) : ℚ :=
  if lo.isSome || hi.isSome then
    match v with
    | none => 2
    | some n =>
      let mn := lo.getD 0
      match hi with
      | some mx =>
        if mn ≤ n ∧ n ≤ mx then
          if (n : ℚ) = qDiv (qAdd (mn : ℚ) (mx : ℚ)) 2 then 20 else 15
        else 5
      | none =>
        if mn ≤ n then (if n = mn then 20 else 15) else 5
  else
    match v with
    | none => 0
    | some _ => 10

/-- Garden and balcony sub-score, shared shape: a required feature scores
10 when present, 0 when explicitly absent, 3 when unknown; a feature the
query declines still earns 3 when the record has it. -/
def featureScore (want : Option Bool) (v : Option Bool) : ℚ :=
  match want with
  | some true =>
    match v with
    | some true => 10
    | some false => 0
    | none => 3
  | some false => if v = some true then 3 else 0
  | none => 0

/-- Data-completeness bonus: two points for each of price, bedrooms,
bathrooms, truthy image URL and truthy postcode. -/
def completenessBonus (p : Property) : ℕ :=
  (if p.price.isSome then 2 else 0) + (if p.bedrooms.isSome then 2 else 0) +
    (if p.bathrooms.isSome then 2 else 0) +
    (if strTruthy p.image_url then 2 else 0) +
    (if strTruthy p.postcode then 2 else 0)

/-- UKPropertyTrawler.calculate_match_score: the clamped sum of the five
sub-scores and the completeness bonus. -/
def calculate_match_score (p : Property) (f : Filters) : ℚ :=
  let total :=
    qAdd (qAdd (qAdd (qAdd (qAdd
      (priceScore p.price f.min_price f.max_price)
      (roomScore p.bedrooms f.min_bedrooms f.max_bedrooms))
      (roomScore p.bathrooms f.min_bathrooms f.max_bathrooms))
      (featureScore f.has_garden p.has_garden))
      (featureScore f.has_balcony p.has_balcony))
      ((completenessBonus p : ℕ) : ℚ)
  pyMin 100 (pyMax 0 total)

/-! ### Filter and rank pipeline (UKPropertyTrawler.filter_properties)

The per-record loop checks the gates in sequence and drops the record at
the first failing gate; since every check is pure, passing the loop body
equals the conjunction of all gate predicates, written below as the
negated disjunction of the failure conditions in source order. -/

/-- Minimum gate on an integer field: with a bound present, a record with
a missing or below-minimum value is dropped. -/
def failsMinGateZ (bound : Option ℤ) (v : Option ℤ) : Bool :=
  match bound with
  | none => false
  | some m =>
    match v with
    | none => true
    | some x => decide (x < m)

/-- Maximum gate on an integer field: with a bound present, only a record
with a present value exceeding it is dropped. -/
def failsMaxGateZ (bound : Option ℤ) (v : Option ℤ) : Bool :=
  match bound with
  | none => false
  | some m =>
    match v with
    | none => false
    | some x => decide (m < x)

/-- Minimum gate on the price field. -/
def failsMinGateQ (bound : Option ℚ) (v : Option ℚ) : Bool :=
  match bound with
  | none => false
  | some m =>
    match v with
    | none => true
    | some x => decide (x < m)

/-- Maximum gate on the price field. -/
def failsMaxGateQ (bound : Option ℚ) (v : Option ℚ) : Bool :=
  match bound with
  | none => false
  | some m =>
    match v with
    | none => false
    | some x => decide (m < x)

/-- Equality gate on a tri-state feature: with a requested boolean, a
record whose field is not exactly that boolean (including the unset case)
is dropped. -/
def failsEqualityGate (want : Option Bool) (v : Option Bool) : Bool :=
  match want with
  | none => false
  | some g => decide (v ≠ some g)

/-- Required number of keyword matches: one for up to two keywords, and
int(n * 0.5) plus one more on an odd count beyond that (the float product
n * 0.5 is exact and int() truncates, giving the rounded-up half). -/
def minRequired (n : ℕ) : ℕ :=
  if n ≤ 2 then 1 else n / 2 + (if n % 2 = 1 then 1 else 0)

/-- Keyword gate: a falsy or all-separator keyword string imposes nothing;
otherwise the record survives exactly when at least minRequired of the
split keywords match the searchable text, each first by plain containment
and then by the fuzzy matcher. -/
def keywordGate (kw : Option String) (searchable : List Char) : Bool :=
  match kw with
  | none => true
  | some s =>
    if s.data.isEmpty then true
    else
      let ks := pyStrip (lowerData s)
      if ks.isEmpty then true
      else
        let kws := pySplitKw ks
        if kws.isEmpty then true
        else
          decide (minRequired kws.length ≤
            (kws.filter (fun k =>
              containsSub searchable k || fuzzy_match_keyword k searchable)).length)

/-- Combined title-and-description text used by the exclusion gates (the
source lower-cases it before the classifier call and the classifier
lower-cases again; lower-casing is idempotent, so the raw concatenation is
passed here and lowered once inside the classifier). -/
def combinedText (p : Property) : String :=
  p.title ++ " " ++ p.description

/-- Lower-cased title-address-description concatenation searched by the
keyword gate. -/
def searchableText (p : Property) : List Char :=
  lowerData (p.title ++ " " ++ p.address ++ " " ++ p.description)

/-- Disjunction of the hard gate failure conditions, in source order:
the three exclusion classifiers, the bedroom, bathroom, garden, balcony
and price gates. -/
def failsHardGates (f : Filters) (p : Property) : Bool :=
  (f.exclude_student_accommodation && is_student_accommodation (some (combinedText p))) ||
  (f.exclude_house_shares && is_house_share (some (combinedText p))) ||
  (f.exclude_retirement && is_retirement_property (some (combinedText p))) ||
  failsMinGateZ f.min_bedrooms p.bedrooms ||
  failsMaxGateZ f.max_bedrooms p.bedrooms ||
  failsMinGateZ f.min_bathrooms p.bathrooms ||
  failsMaxGateZ f.max_bathrooms p.bathrooms ||
  failsEqualityGate f.has_garden p.has_garden ||
  failsEqualityGate f.has_balcony p.has_balcony ||
  failsMinGateQ f.min_price p.price ||
  failsMaxGateQ f.max_price p.price

/-- Whether a record survives every gate of the loop body. -/
def passesFilters (f : Filters) (p : Property) : Bool :=
  !failsHardGates f p && keywordGate f.keywords (searchableText p)

/-- Survivors receive their match score (prop.match_score = ... in the
source; modelled as a functional update). -/
def assignScore (f : Filters) (p : Property) : Property :=
  { p with match_score := some (calculate_match_score p f) }

/-- The scored survivor list, in input order. -/
def scoredList (f : Filters) (ps : List Property) : List Property :=
  (ps.filter (passesFilters f)).map (assignScore f)

/-- Sort key: match_score or 0 (None and 0.0 both give 0). -/
def sortKey (p : Property) : ℚ :=
  p.match_score.getD 0

/-- Descending comparison used for the final sort: list.sort with
reverse=True is a stable descending sort, modelled by a stable merge sort
with this comparator. -/
def scoreGE (a b : Property) : Bool :=
  decide (sortKey b ≤ sortKey a)

/-- UKPropertyTrawler.filter_properties: gate every record, score the
survivors, sort by descending match score with ties in input order. -/
def filter_properties (f : Filters) (ps : List Property) : List Property :=
  List.mergeSort (scoredList f ps) scoreGE

/-! ### Claim C1 -/

/-- Claim C1: the claim states that garden extraction returns false on
"no garden" and no result on "modern kitchen".  The code disagrees on the
first input: the positive indicator list is checked first and contains the
word-boundary pattern garden, which matches inside "no garden", so the
extractor returns true; every negative indicator contains a positive
indicator as a substring, leaving the negative branch unreachable.  This
theorem evaluates the extractor at both inputs of the claim. -/
theorem garden_no_garden_evaluates_true :
    extract_garden (some "no garden") = some true ∧
    extract_garden (some "modern kitchen") = none := by
  decide

/-! ### Claim C2 -/

/-- Claim C2 counterexample: the claim states that a price matched with a
monthly qualifier is never converted even when the surrounding text
mentions a weekly marker elsewhere, and that a bare amount is never
converted.  Both fail: the source tests the whole lower-cased text for
"pw" or "per week" rather than the matched qualifier, so "£600 pcm,
viewings per week" (monthly qualifier) and "£600 deposit, bills pw" (bare
amount) are both converted away from 600. -/
theorem price_weekly_qualifier_counterexample :
    extract_price (some "£600 pcm, viewings per week") ≠ some 600 ∧
    extract_price (some "£600 deposit, bills pw") ≠ some 600 := by
  decide

/-- Claim C2 amended: the weekly-to-monthly conversion (times 52, divided
by 12) is applied exactly when the lower-cased full text contains "pw" or
"per week" as a substring, regardless of which pattern matched: a monthly
"£600 pcm" alone stays 600, the same match with "per week" elsewhere in
the text becomes 2600, a weekly "£600 pw" becomes 2600, and a bare "£600"
stays 600 without a weekly marker but becomes 2600 with one. -/
theorem price_weekly_text_marker_behaviour :
    extract_price (some "£600 pcm") = some 600 ∧
    extract_price (some "£600 pcm, viewings per week") = some 2600 ∧
    extract_price (some "£600 pw") = some 2600 ∧
    extract_price (some "£600") = some 600 ∧
    extract_price (some "£600 deposit, bills pw") = some 2600 := by
  decide

/-! ### Claim C3 -/

/-- Claim C3: the claim states a flat 15 when neither price bound is
given, min-only 30-or-0, and max-only 30-or-0.  On the code, with absent
keys defaulting to 0 and infinity, a query with no price bounds takes the
min-branch with minimum 0 and awards 30 to the record priced 1500 (not
15), and a query with only max_price 2000 takes the both-bounds branch
with minimum 0 and awards the midpoint formula value 22.5 (not 30); only
the min-only behaviour matches the claim, as the last conjunct shows for
all prices and minima. -/
theorem price_subscore_absent_bounds_evaluation :
    priceScore (some 1500) none none = 30 ∧
    priceScore (some 1500) none (some 2000) = mkRat 45 2 ∧
    (∀ p m : ℚ, priceScore (some p) (some m) none = if m ≤ p then 30 else 0) := by
  refine ⟨by decide, by decide, fun p m => rfl⟩

/-! ### Claim C4 -/

/-- Claim C4 counterexample: the claim states that the fuzzy matcher on
keyword "it" against body "kit" returns false; the short-keyword branch
performs a plain substring test and "it" occurs inside "kit", so the
matcher returns true. -/
theorem fuzzy_short_keyword_counterexample :
    fuzzy_match_keyword "it".data "kit".data ≠ false := by
  decide

/-- Claim C4 amended: a keyword of length at most three is matched by
exact substring containment against the whole body, and "it" is a
substring of "kit", so the matcher returns true on this pair. -/
theorem fuzzy_short_keyword_substring :
    fuzzy_match_keyword "it".data "kit".data = true ∧
    containsSub "kit".data "it".data = true := by
  decide

/-! ### Claim C5 -/

/-- The record of the end-to-end scenario (the system test record). -/
def systemTestProperty : Property :=
  { title := "Test Property", price := some 1500, address := "London",
    bedrooms := some 2, bathrooms := some 1, description := "Test description",
    url := "http://test.com", source := "Test", location := "London",
    postcode := some "SW1A 1AA", has_garden := some true,
    has_balcony := some false, image_url := some "http://test.com/image.jpg" }

/-- The query of the end-to-end scenario. -/
def systemTestFilters : Filters :=
  { min_price := some 1000, max_price := some 2000,
    min_bedrooms := some 2, max_bedrooms := some 3, has_garden := some true }

/-- Claim C5: scoring the record (price 1500, 2 bedrooms, 1 bathroom,
garden, no balcony, postcode and image present) against the query (price
in [1000, 2000], bedrooms in [2, 3], garden required) yields exactly 75,
decomposed as price 30, bedrooms 15, bathrooms data-presence 10, garden
10, balcony 0, completeness 10. -/
theorem end_to_end_match_score_75 :
    priceScore (some 1500) (some 1000) (some 2000) = 30 ∧
    roomScore (some 2) (some 2) (some 3) = 15 ∧
    roomScore (some 1) none none = 10 ∧
    featureScore (some true) (some true) = 10 ∧
    featureScore none (some false) = 0 ∧
    (completenessBonus systemTestProperty : ℚ) = 10 ∧
    calculate_match_score systemTestProperty systemTestFilters = 75 := by
  decide

/-! ### Claim C9 -/

/-- Claim C9: every extractor and classifier is a total function of its
optional input (immediate from the embedding being total Lean functions),
and absent or empty text yields the empty optional from each typed
extractor and false from each classifier. -/
theorem extractors_total_on_empty_input :
    extract_price none = none ∧ extract_price (some "") = none ∧
    extract_bedrooms none = none ∧ extract_bedrooms (some "") = none ∧
    extract_bathrooms none = none ∧ extract_bathrooms (some "") = none ∧
    extract_garden none = none ∧ extract_garden (some "") = none ∧
    extract_balcony none = none ∧ extract_balcony (some "") = none ∧
    extract_postcode none = none ∧ extract_postcode (some "") = none ∧
    is_student_accommodation none = false ∧
    is_student_accommodation (some "") = false ∧
    is_house_share none = false ∧ is_house_share (some "") = false ∧
    is_retirement_property none = false ∧
    is_retirement_property (some "") = false := by
  decide

/-! ### Claim C6 -/

/-- The required-count expression of the source equals the rounded-up half
for three or more keywords. -/
theorem minRequired_eq_ceil (n : ℕ) :
    minRequired n = if n ≤ 2 then 1 else (n + 1) / 2 := by
  rw [minRequired]
  by_cases h : n ≤ 2
  · rw [if_pos h, if_pos h]
  · rw [if_neg h, if_neg h]
    rcases Nat.mod_two_eq_zero_or_one n with h2 | h2 <;> simp [h2] <;> omega

/-- Claim C6: for a keyword string that splits into a nonempty list of n
keywords, the gate requires one match when n is at most 2 and the
rounded-up half of n beyond that, and the record is dropped exactly when
fewer than that many keywords match the searchable text (by containment
or fuzzy match). -/
theorem keyword_gate_required_count (s : String) (body : List Char)
    (h : pySplitKw (pyStrip (lowerData s)) ≠ []) :
    (keywordGate (some s) body = false ↔
      ((pySplitKw (pyStrip (lowerData s))).filter
          (fun k => containsSub body k || fuzzy_match_keyword k body)).length <
        (if (pySplitKw (pyStrip (lowerData s))).length ≤ 2 then 1
         else ((pySplitKw (pyStrip (lowerData s))).length + 1) / 2)) := by
  have hd : s.data.isEmpty = false := by
    cases hsd : s.data with
    | nil =>
      exact absurd (by simp [lowerData, hsd]; rfl) h
    | cons c cs => rfl
  have hks : (pyStrip (lowerData s)).isEmpty = false := by
    cases hk : pyStrip (lowerData s) with
    | nil => exact absurd (by rw [hk]; rfl) h
    | cons c cs => rfl
  have hkw : (pySplitKw (pyStrip (lowerData s))).isEmpty = false := by
    cases hk : pySplitKw (pyStrip (lowerData s)) with
    | nil => exact absurd hk h
    | cons c cs => rfl
  simp only [keywordGate, hd, hks, hkw, Bool.false_eq_true, if_false]
  rw [minRequired_eq_ceil, decide_eq_false_iff_not, Nat.not_le]

/-- Claim C6 witness: the keywords "flat xy zz" split into three keywords
requiring two matches, and only "flat" matches the body, so the record is
dropped. -/
theorem keyword_gate_required_count_witness :
    pySplitKw (pyStrip (lowerData "flat xy zz")) ≠ [] ∧
    keywordGate (some "flat xy zz") "nice flat".data = false :=
  ⟨by decide,
   (keyword_gate_required_count "flat xy zz" "nice flat".data (by decide)).mpr
     (by decide)⟩

/-! ### Claim C7 -/

/-- Claim C7: in the hard range gates, a query minimum on bedrooms,
bathrooms or price drops any record whose corresponding value is unset,
while a query maximum never drops a record with an unset value: the
maximum gate fires exactly on a present value exceeding the bound. -/
theorem range_gates_unset_handling (f : Filters) (p : Property) :
    (f.min_bedrooms.isSome = true → p.bedrooms = none →
      passesFilters f p = false) ∧
    (f.min_bathrooms.isSome = true → p.bathrooms = none →
      passesFilters f p = false) ∧
    (f.min_price.isSome = true → p.price = none →
      passesFilters f p = false) ∧
    failsMaxGateZ f.max_bedrooms none = false ∧
    failsMaxGateZ f.max_bathrooms none = false ∧
    failsMaxGateQ f.max_price none = false ∧
    (∀ m x : ℤ, failsMaxGateZ (some m) (some x) = true ↔ m < x) ∧
    (∀ m x : ℚ, failsMaxGateQ (some m) (some x) = true ↔ m < x) := by
  refine ⟨?_, ?_, ?_, ?_, ?_, ?_, ?_, ?_⟩
  · intro hs hn
    obtain ⟨m, hm⟩ := Option.isSome_iff_exists.mp hs
    simp [passesFilters, failsHardGates, failsMinGateZ, hm, hn]
  · intro hs hn
    obtain ⟨m, hm⟩ := Option.isSome_iff_exists.mp hs
    simp [passesFilters, failsHardGates, failsMinGateZ, hm, hn]
  · intro hs hn
    obtain ⟨m, hm⟩ := Option.isSome_iff_exists.mp hs
    simp [passesFilters, failsHardGates, failsMinGateQ, hm, hn]
  · cases f.max_bedrooms <;> rfl
  · cases f.max_bathrooms <;> rfl
  · cases f.max_price <;> rfl
  · intro m x
    simp [failsMaxGateZ]
  · intro m x
    simp [failsMaxGateQ]

/-- A query with only a bedroom minimum. -/
def unsetGateFilters : Filters :=
  { min_bedrooms := some 1 }

/-- A record with every optional field unset. -/
def unsetGateProperty : Property :=
  {}

/-- Claim C7 witness: the bedroom minimum drops the record with unknown
bedrooms, and the maximum gate on present values is the strict comparison. -/
theorem range_gates_unset_handling_witness :
    passesFilters unsetGateFilters unsetGateProperty = false ∧
    (failsMaxGateZ (some 2) (some 3) = true ↔ (2:ℤ) < 3) :=
  ⟨(range_gates_unset_handling unsetGateFilters unsetGateProperty).1 rfl rfl,
   (range_gates_unset_handling unsetGateFilters
      unsetGateProperty).2.2.2.2.2.2.1 2 3⟩

/-! ### Claim C8 -/

/-- The descending comparator is transitive. -/
theorem scoreGE_trans (a b c : Property) :
    scoreGE a b = true → scoreGE b c = true → scoreGE a c = true := by
  simp only [scoreGE, decide_eq_true_eq]
  exact fun h1 h2 => le_trans h2 h1

/-- The descending comparator is total. -/
theorem scoreGE_total (a b : Property) :
    scoreGE a b || scoreGE b a := by
  simp only [scoreGE, Bool.or_eq_true, decide_eq_true_eq]
  exact le_total (sortKey b) (sortKey a)

/-- Claim C8: the pipeline output is sorted by weakly decreasing match
score, and two scored survivors with equal match score appear in the same
relative order as in the scored survivor list (which lists the surviving
input records in input order). -/
theorem filter_rank_sorted_stable (f : Filters) (ps : List Property) :
    List.Pairwise (fun a b => sortKey b ≤ sortKey a) (filter_properties f ps) ∧
    ∀ a b : Property, sortKey a = sortKey b →
      [a, b].Sublist (scoredList f ps) →
      [a, b].Sublist (filter_properties f ps) := by
  constructor
  · have hs := List.sorted_mergeSort scoreGE_trans
      (fun a b => scoreGE_total a b) (scoredList f ps)
    exact hs.imp (fun h => by simpa [scoreGE] using h)
  · intro a b heq hsub
    exact List.pair_sublist_mergeSort scoreGE_trans
      (fun a b => scoreGE_total a b)
      (by simp [scoreGE, heq]) hsub

/-- First record of the stability witness. -/
def stableSortFirst : Property :=
  { title := "first" }

/-- Second record of the stability witness, distinct but equally scored. -/
def stableSortSecond : Property :=
  { title := "second" }

/-- Claim C8 witness: under the empty query both witness records survive
with equal scores and the output preserves their input order. -/
theorem filter_rank_sorted_stable_witness :
    [assignScore ({} : Filters) stableSortFirst,
     assignScore ({} : Filters) stableSortSecond].Sublist
      (filter_properties ({} : Filters) [stableSortFirst, stableSortSecond]) :=
  (filter_rank_sorted_stable ({} : Filters) [stableSortFirst, stableSortSecond]).2
    (assignScore ({} : Filters) stableSortFirst)
    (assignScore ({} : Filters) stableSortSecond)
    (by decide) (by decide)

/-! ### Claim C10 -/

/-- A text the student classifier rejects contains no standalone word
"student": the classifier's first indicator is exactly that word-boundary
search. -/
theorem not_student_no_word (s : String)
    (h : is_student_accommodation (some s) = false) :
    wbSearch "student".data (lowerData s) = false := by
  cases hsd : s.data with
  | nil =>
    rw [show lowerData s = [] from by simp [lowerData, hsd]]
    rfl
  | cons c cs =>
    simp only [is_student_accommodation, hsd, List.isEmpty_cons,
      Bool.false_eq_true, if_false] at h
    cases hall : wbSearch "student".data (lowerData s) with
    | false => rfl
    | true =>
      rw [show studentIndicators.any (fun q => wbSearch q (lowerData s)) = true from by
        simp [studentIndicators, hall]] at h
      exact absurd h (by decide)

/-- Claim C10: any text whose lower-cased form contains the standalone
word "student" is classified as student accommodation, and with the
student exclusion enabled no record whose combined title and description
mentions that word survives the pipeline. -/
theorem student_word_always_excluded (t : String) (f : Filters)
    (ps : List Property)
    (ht : wbSearch "student".data (lowerData t) = true)
    (hf : f.exclude_student_accommodation = true) :
    is_student_accommodation (some t) = true ∧
    ∀ q ∈ filter_properties f ps,
      wbSearch "student".data (lowerData (combinedText q)) = false := by
  constructor
  · have hd : t.data.isEmpty = false := by
      cases hsd : t.data with
      | nil =>
        rw [show lowerData t = [] from by simp [lowerData, hsd]] at ht
        exact absurd ht (by decide)
      | cons c cs => rfl
    simp [is_student_accommodation, hd, studentIndicators, ht]
  · intro q hq
    rw [filter_properties] at hq
    have hq2 : q ∈ scoredList f ps := List.mem_mergeSort.mp hq
    rw [scoredList] at hq2
    obtain ⟨p, hp, rfl⟩ := List.mem_map.mp hq2
    have hpass : passesFilters f p = true := (List.mem_filter.mp hp).2
    simp only [passesFilters] at hpass
    have h1 := (Bool.and_eq_true_iff.mp hpass).1
    rw [Bool.not_eq_true'] at h1
    simp only [failsHardGates, Bool.or_eq_false_iff] at h1
    have h2 := h1.1.1.1.1.1.1.1.1.1.1
    rw [hf, Bool.true_and] at h2
    have hcomb : combinedText (assignScore f p) = combinedText p := rfl
    rw [hcomb]
    exact not_student_no_word (combinedText p) h2

/-- A query excluding student accommodation. -/
def studentExcludeFilters : Filters :=
  { exclude_student_accommodation := true }

/-- A record mentioning the word student in its title. -/
def studentExcludeProperty : Property :=
  { title := "Student flat", description := "near campus" }

/-- Claim C10 witness: "Student flat to rent" is classified as student
accommodation, and with the exclusion enabled no surviving record of the
witness input mentions the word student. -/
theorem student_word_always_excluded_witness :
    is_student_accommodation (some "Student flat to rent") = true ∧
    ∀ q ∈ filter_properties studentExcludeFilters [studentExcludeProperty],
      wbSearch "student".data (lowerData (combinedText q)) = false :=
  student_word_always_excluded "Student flat to rent" studentExcludeFilters
    [studentExcludeProperty] (by decide) rfl

end HouseTrawler
